import Mathlib

/-!
# Verification of the TextArena turn/phase orchestration core

Shallow embedding of the two orchestration-heavy environments of the
repository:

* `textarena/envs/WinAsMuchAsYouCan/env.py` (4-player talk/act game), and
* `textarena/envs/VendorNegotiation/env.py` (2-player negotiation game),

together with the minimal pieces of the TextArena state core
(`add_observation`, `set_invalid_move`, `set_winners`, `state.step`) that the
environments call; those core pieces are not part of the given sources and are
modelled from the specification where noted.

Python strings are embedded as `List Char`; the regex searches of the
environments (`re.search` with `IGNORECASE`/`DOTALL`) are embedded as
executable scanners over character lists.  Machine integers are `Int`/`Nat`
(the game arithmetic cannot overflow in Python), floats are `ℚ`, and the
NumPy random generator is modelled as an explicit stream of standard-normal
draws together with a cursor into the stream.
-/

set_option autoImplicit false

/-- A Python string, embedded as its list of characters. -/
abbrev Str : Type := List Char

/-- Modelled from the spec: the sentinel "referee" identity used as the
`from_id` of system-generated announcements (`ta.GAME_ID`). -/
def GAME_ID : Int := -1

/-- Modelled from the spec: the observation-type tags used by the two
environments (`ta.ObservationType`). -/
inductive ObsType where
  | playerAction
  | gameActionDescription
  | gameMessage
  | gameAdmin
  | gameBoard
deriving DecidableEq, Repr

/-! ## Character and pattern utilities

Executable embedding of the `re` searches used by the environments.
`re.IGNORECASE` on the ASCII patterns of the source is modelled by
lower-casing both sides with `asciiLower`.
-/

/-- ASCII lower-casing (the patterns of the source are pure ASCII). -/
def asciiLower (c : Char) : Char :=
  if 65 ≤ c.toNat ∧ c.toNat ≤ 90 then Char.ofNat (c.toNat + 32) else c

/-- Python `\s` whitespace class. -/
def wsChar (c : Char) : Bool :=
  c = ' ' || c = '\t' || c = '\n' || c = '\r' || c = '\x0b' || c = '\x0c'

/-- Python `str.strip()`: remove leading and trailing whitespace. -/
def stripStr (s : Str) : Str :=
  ((s.dropWhile wsChar).reverse.dropWhile wsChar).reverse

/-- Case-insensitive literal match at the head of `s`: if the pattern `pat`
matches a prefix of `s` up to ASCII case, return the remaining characters of
the original string. -/
def ciPref : Str → Str → Option Str
  | [], s => some s
  | _ :: _, [] => none
  | p :: ps, c :: cs => if asciiLower p = asciiLower c then ciPref ps cs else none

/-- Case-insensitive leftmost search of a literal pattern, returning the
suffix after the first match (the behaviour of `re.search` on a literal
pattern with `re.IGNORECASE`, capturing what follows). -/
def ciSearch (pat : Str) : Str → Option Str
  | [] => ciPref pat []
  | c :: cs =>
    match ciPref pat (c :: cs) with
    | some rest => some rest
    | none => ciSearch pat cs

/-- Case-sensitive literal match at the head of `s` (Python `in` / `split`
on a literal work case-sensitively). -/
def litPref : Str → Str → Option Str
  | [], s => some s
  | _ :: _, [] => none
  | p :: ps, c :: cs => if p = c then litPref ps cs else none

/-- Case-sensitive leftmost search of a literal, returning the suffix after
the first occurrence. -/
def litSearch (pat : Str) : Str → Option Str
  | [] => litPref pat []
  | c :: cs =>
    match litPref pat (c :: cs) with
    | some rest => some rest
    | none => litSearch pat cs

/-- Python `pat in s` for a literal pattern. -/
def litFound (pat : Str) (s : Str) : Bool := (litSearch pat s).isSome

/-- The prefix of `s` up to (excluding) the first occurrence of the literal
`pat`, or all of `s` when `pat` does not occur: together with `litSearch`
this embeds `s.split(pat)[1]` as the segment between the first and the
second occurrence of `pat`. -/
def takeUntilLit (pat : Str) : Str → Str
  | [] => []
  | c :: cs =>
    match litPref pat (c :: cs) with
    | some _ => []
    | none => c :: takeUntilLit pat cs

/-- Require at least one whitespace character, then drop all further
whitespace (the `\s+` regex atom followed greedily). -/
def dropWs1 (s : Str) : Option Str :=
  match s with
  | c :: cs => if wsChar c then some (cs.dropWhile wsChar) else none
  | [] => none

/-- A maximal nonempty digit run at the head of `s` (the `\d+` regex atom),
returning the run and the rest. -/
def digits1 (s : Str) : Option (Str × Str) :=
  let run := s.takeWhile Char.isDigit
  if run = [] then none else some (run, s.dropWhile Char.isDigit)

/-- Python `int(...)` on a digit run. -/
def digitsToNat (s : Str) : Nat :=
  s.foldl (fun n c => n * 10 + (c.toNat - 48)) 0

/-- Match of `\[Whisper\s+to\s+(\d+)\]\s*(.*)` (with `IGNORECASE`/`DOTALL`)
anchored at the head of `s`: returns the captured digit run and the body
after the closing bracket with leading whitespace removed. -/
def whisperAt (s : Str) : Option (Str × Str) :=
  match s with
  | '[' :: s1 =>
    match ciPref "whisper".toList s1 with
    | none => none
    | some s2 =>
      match dropWs1 s2 with
      | none => none
      | some s3 =>
        match ciPref "to".toList s3 with
        | none => none
        | some s4 =>
          match dropWs1 s4 with
          | none => none
          | some s5 =>
            match digits1 s5 with
            | none => none
            | some (ds, s6) =>
              match s6 with
              | ']' :: rest => some (ds, rest.dropWhile wsChar)
              | _ => none
  | _ => none

/-- Leftmost search of the whisper pattern (`whisper_pattern.search`). -/
def whisperSearch : Str → Option (Str × Str)
  | [] => none
  | c :: cs =>
    match whisperAt (c :: cs) with
    | some r => some r
    | none => whisperSearch cs

/-- `broadcast_pattern.search`: leftmost case-insensitive occurrence of
`\[Broadcast\]\s*(.*)` (`DOTALL`), returning the captured group: everything
after the marker with leading whitespace removed. -/
def broadcastSearch (s : Str) : Option Str :=
  (ciSearch "[broadcast]".toList s).map (List.dropWhile wsChar)

/-- `pass_pattern.search`: the action contains `\[Pass\]` (case-insensitive). -/
def passFound (s : Str) : Bool := (ciSearch "[pass]".toList s).isSome

/-- Match of `\[Choose\s+L\]` (case-insensitive) anchored at the head of `s`,
for a single-character label `L`. -/
def chooseAt (label : Char) (s : Str) : Bool :=
  match s with
  | '[' :: s1 =>
    match ciPref "choose".toList s1 with
    | none => false
    | some s2 =>
      match dropWs1 s2 with
      | none => false
      | some s3 =>
        match s3 with
        | c :: ']' :: _ => asciiLower c = asciiLower label
        | _ => false
  | _ => false

/-- Leftmost search of the `[Choose L]` pattern. -/
def chooseFound (label : Char) : Str → Bool
  | [] => false
  | c :: cs => chooseAt label (c :: cs) || chooseFound label cs

/-! ## WinAsMuchAsYouCan (`textarena/envs/WinAsMuchAsYouCan/env.py`)

4 players, 10 rounds; rounds 5, 8 and 10 start with a talk phase.  The
environment's `game_state` dict, the relevant fields of the TextArena
`FFAMultiPlayerState`, and the helper methods of `WinAsMuchAsYouCanEnv` are
embedded below.  Messages emitted through `add_observation` are rendered
structurally: one `WMsg` constructor per f-string of the source, carrying
exactly the data interpolated there.
-/

namespace WinAsMuchAsYouCan

/-- An act-phase choice (`"X"` / `"Y"` in the source). -/
inductive XY where
  | X
  | Y
deriving DecidableEq, Repr

/-- The two phases of the environment (`"talk"` / `"act"`). -/
inductive WPhase where
  | talk
  | act
deriving DecidableEq, Repr

/-- Structured rendering of every message the environment passes to
`add_observation`; each constructor corresponds to one message format of the
source and carries the data interpolated into it. -/
inductive WMsg where
  /-- the raw action string echoed at the top of `step` -/
  | playerActionEcho (action : Str)
  /-- `"Player {pid} (Broadcast): {message}"` -/
  | broadcastMsg (sender : Nat) (message : Str)
  /-- `"Player {pid} (Private): {message}"` (sent to the whisper target) -/
  | privateMsg (sender : Nat) (message : Str)
  /-- `"You sent private message to Player {t}: {message}"` (to the sender) -/
  | privateConfirm (target : Nat) (message : Str)
  /-- `"A private message was sent between two players"` -/
  | privateNotice
  /-- `"Player {pid} passed"` -/
  | passedMsg (pid : Nat)
  /-- `"Player {pid} made their choice"` -/
  | madeChoice (pid : Nat)
  /-- `"Talk phase ended. Now choosing X or Y for Round {r}"` -/
  | talkPhaseEnded (round : Nat)
  /-- `"Round {r} - Talk phase begins"` -/
  | talkPhaseBegins (round : Nat)
  /-- `"Round {r} - Choose X or Y"` -/
  | chooseRound (round : Nat)
  /-- `"Round {r} Results: ..."` with the sorted choice list and counts -/
  | roundResults (round : Nat) (choices : List (Nat × XY)) (x y : Nat)
  /-- `"Player {pid}: {points:+d} points (Total: {total})"` -/
  | scoreLine (pid : Nat) (points total : Int)
  /-- `"GAME OVER - Final Scores:"` -/
  | gameOverHeader
  /-- `"Player {pid}: {score} points"` in the final listing -/
  | finalScore (pid : Nat) (score : Int)
deriving DecidableEq, Repr

/-- One delivered observation (`add_observation(from_id, to_id, message,
observation_type)`); `toId = -1` broadcasts to every player. -/
structure WObs where
  fromId : Int
  toId : Int
  msg : WMsg
  otype : ObsType
deriving DecidableEq, Repr

/-- The reasons passed to `set_invalid_move`, one constructor per message
string of the source. -/
inductive WReason where
  /-- `"Unknown game phase"` -/
  | unknownPhase
  /-- `"You have already passed"` -/
  | alreadyPassed
  /-- `"Broadcast message cannot be empty"` -/
  | emptyBroadcast
  /-- `"Target player must be 0, 1, 2, or 3"` -/
  | targetOutOfRange
  /-- `"Cannot whisper to yourself"` -/
  | whisperSelf
  /-- `"Whisper message cannot be empty"` -/
  | emptyWhisper
  /-- `"Use [Broadcast] message, [Whisper to X] message, or [Pass]"` -/
  | useTalkCommands
  /-- `"You have already made your choice this round"` -/
  | alreadyChose
  /-- `"Use [Choose X] or [Choose Y]"` -/
  | useChooseCommands
deriving DecidableEq, Repr

/-- Recipient field of a `talk_messages` record (`"all"` or a player id). -/
inductive TalkTo where
  | all
  | player (t : Nat)
deriving DecidableEq, Repr

/-- One `talk_messages` record; `isWhisper` distinguishes the
`"type": "whisper"` records (which in the source also carry `hidden: True`)
from `"type": "broadcast"`. -/
structure TalkMsg where
  round : Nat
  talkRound : Nat
  sender : Nat
  recipient : TalkTo
  message : Str
  isWhisper : Bool
deriving DecidableEq, Repr

/-- One `round_history` record. -/
structure WRound where
  round : Nat
  choices : List (Nat × XY)
  xCount : Nat
  yCount : Nat
  baseX : Int
  baseY : Int
  multiplier : Nat
  results : List (Nat × XY × Int)
deriving DecidableEq, Repr

/-- The environment state: the `game_state` dict of the source together with
the fields of the TextArena core state the environment reads and writes
(`current_player_id`, `turn`, `done`, the observation log, the invalid-move
ledger modelled from the spec, and the final winners/rewards).
`endGameCalls` is a ghost counter recording how many times `_end_game` has
been invoked on this instance. -/
structure WState where
  currentRound : Nat
  currentPhase : WPhase
  playerChoices : List (Nat × XY)
  playerScores : Nat → Int
  roundHistory : List WRound
  talkRound : Nat
  maxTalkRounds : Nat
  playersPassed : List Nat
  talkMessages : List TalkMsg
  currentPlayerId : Nat
  turn : Nat
  done : Bool
  observations : List WObs
  strikes : List (Nat × WReason)
  rewards : Nat → Int
  rewardsSet : Bool
  winners : List Nat
  winnersSet : Bool
  endGameCalls : Nat

/-- `add_observation`: append one observation to the log. -/
def addObs (fromId toId : Int) (m : WMsg) (ot : ObsType) (s : WState) : WState :=
  {s with observations := s.observations ++ [⟨fromId, toId, m, ot⟩]}

/-- Modelled from the spec: `set_invalid_move` charges the acting player one
strike, recorded with its reason (the Error/Validity Ledger of §4.5). -/
def setInvalid (pid : Nat) (r : WReason) (s : WState) : WState :=
  {s with strikes := s.strikes ++ [(pid, r)]}

/-- The `round_multipliers` table `{1:1, 2:1, 3:1, 4:1, 5:3, 6:1, 7:1, 8:5,
9:1, 10:10}` as a function on the round number. -/
def roundMultipliers (r : Nat) : Nat :=
  if r = 5 then 3 else if r = 8 then 5 else if r = 10 then 10 else 1

/-- The `communication_rounds` set `{5, 8, 10}`. -/
def isCommRound (r : Nat) : Bool :=
  r = 5 || r = 8 || r = 10

/-- `_process_talk_phase`: returns the success flag together with the updated
state. -/
def process_talk_phase (s : WState) (pid : Nat) (action : Str) : Bool × WState :=
  if s.playersPassed.contains pid then
    (false, setInvalid pid .alreadyPassed s)
  else
    match broadcastSearch action with
    | some body =>
      let message := stripStr body
      if message = [] then (false, setInvalid pid .emptyBroadcast s)
      else
        let s := addObs GAME_ID (-1) (.broadcastMsg pid message) .gameActionDescription s
        (true, {s with talkMessages :=
          s.talkMessages ++ [⟨s.currentRound, s.talkRound, pid, .all, message, false⟩]})
    | none =>
      match whisperSearch action with
      | some (ds, body) =>
        let target := digitsToNat ds
        if 4 ≤ target then (false, setInvalid pid .targetOutOfRange s)
        else if target = pid then (false, setInvalid pid .whisperSelf s)
        else
          let message := stripStr body
          if message = [] then (false, setInvalid pid .emptyWhisper s)
          else
            let s := addObs GAME_ID (Int.ofNat target) (.privateMsg pid message) .gameActionDescription s
            let s := addObs GAME_ID (Int.ofNat pid) (.privateConfirm target message) .gameActionDescription s
            let s := (List.range 4).foldl
              (fun t q =>
                if q ≠ pid ∧ q ≠ target then
                  addObs GAME_ID (Int.ofNat q) .privateNotice .gameActionDescription t
                else t) s
            (true, {s with talkMessages :=
              s.talkMessages ++ [⟨s.currentRound, s.talkRound, pid, .player target, message, true⟩]})
      | none =>
        if passFound action then
          let s := {s with playersPassed := s.playersPassed ++ [pid]}
          (true, addObs GAME_ID (-1) (.passedMsg pid) .gameActionDescription s)
        else (false, setInvalid pid .useTalkCommands s)

/-- `_process_act_phase`. -/
def process_act_phase (s : WState) (pid : Nat) (action : Str) : Bool × WState :=
  if (s.playerChoices.lookup pid).isSome then
    (false, setInvalid pid .alreadyChose s)
  else if chooseFound 'X' action then
    (true, addObs GAME_ID (-1) (.madeChoice pid) .gameActionDescription
      {s with playerChoices := s.playerChoices ++ [(pid, XY.X)]})
  else if chooseFound 'Y' action then
    (true, addObs GAME_ID (-1) (.madeChoice pid) .gameActionDescription
      {s with playerChoices := s.playerChoices ++ [(pid, XY.Y)]})
  else (false, setInvalid pid .useChooseCommands s)

/-- `_process_action` (the phase tag is a two-valued enum here, so the
source's `"Unknown game phase"` branch is unreachable). -/
def process_action (s : WState) (pid : Nat) (action : Str) : Bool × WState :=
  match s.currentPhase with
  | .talk => process_talk_phase s pid action
  | .act => process_act_phase s pid action

/-- `_get_next_talk_player`: the `for i in range(1, 5)` scan unrolled. -/
def get_next_talk_player (s : WState) : Option Nat :=
  if s.talkRound ≥ s.maxTalkRounds then none
  else
    let cur := s.currentPlayerId
    if s.playersPassed.contains ((cur + 1) % 4) then
      if s.playersPassed.contains ((cur + 2) % 4) then
        if s.playersPassed.contains ((cur + 3) % 4) then
          if s.playersPassed.contains ((cur + 4) % 4) then none
          else some ((cur + 4) % 4)
        else some ((cur + 3) % 4)
      else some ((cur + 2) % 4)
    else some ((cur + 1) % 4)

/-- `_get_next_player_needing_choice`: the `for player_id in range(4)` scan
unrolled. -/
def get_next_player_needing_choice (s : WState) : Option Nat :=
  if (s.playerChoices.lookup 0).isNone then some 0
  else if (s.playerChoices.lookup 1).isNone then some 1
  else if (s.playerChoices.lookup 2).isNone then some 2
  else if (s.playerChoices.lookup 3).isNone then some 3
  else none

/-- `_check_if_phase_should_end` (it mutates `talk_round`, hence returns the
updated state as well). -/
def check_if_phase_should_end (s : WState) : Bool × WState :=
  match s.currentPhase with
  | .talk =>
    let s := {s with talkRound := s.talkRound + 1}
    if s.talkRound ≥ s.maxTalkRounds then (true, s)
    else if 4 ≤ s.playersPassed.length then (true, s)
    else (false, s)
  | .act => (4 ≤ s.playerChoices.length, s)

/-- The base-points table of `_score_round` as a function of the X/Y counts;
result is `(points per X, points per Y)`. -/
def basePoints (x y : Nat) : Int × Int :=
  if x = 1 ∧ y = 3 then (3, -1)
  else if x = 2 ∧ y = 2 then (2, -2)
  else if x = 3 ∧ y = 1 then (1, -3)
  else if x = 4 then (-1, 0)
  else if y = 4 then (0, 1)
  else (0, 0)

/-- `sorted(choices.items())` for choice dictionaries keyed by `0..3`. -/
def sortedChoices (choices : List (Nat × XY)) : List (Nat × XY) :=
  (List.range 4).filterMap (fun p => (choices.lookup p).map (fun c => (p, c)))

/-- `_score_round`. -/
def score_round (s : WState) : WState :=
  let choices := s.playerChoices
  let r := s.currentRound
  let mult := roundMultipliers r
  let xCount := choices.countP (fun pc => match pc.2 with | XY.X => true | XY.Y => false)
  let yCount := 4 - xCount
  let bp := basePoints xCount yCount
  let results : List (Nat × XY × Int) :=
    choices.map (fun pc =>
      (pc.1, pc.2, (match pc.2 with | XY.X => bp.1 | XY.Y => bp.2) * (mult : Int)))
  let newScores := results.foldl
    (fun f e => fun p => if p = e.1 then f p + e.2.2 else f p) s.playerScores
  let s := {s with playerScores := newScores,
                   roundHistory := s.roundHistory ++
                     [⟨r, choices, xCount, yCount, bp.1, bp.2, mult, results⟩]}
  let s := addObs GAME_ID (-1) (.roundResults r (sortedChoices choices) xCount yCount)
    .gameActionDescription s
  results.foldl
    (fun t e => addObs GAME_ID (-1) (.scoreLine e.1 e.2.2 (newScores e.1))
      .gameActionDescription t) s

/-- `max(final_scores.values())` over the four players. -/
def maxScoreOf (scores : Nat → Int) : Int :=
  max (max (max (scores 0) (scores 1)) (scores 2)) (scores 3)

/-- `_end_game`: announces final scores, designates winners
(`set_winners`, modelled from the spec as recording the winner list), assigns
rewards `1 / -1` when the maximum score is positive and `0` for everyone
otherwise, marks the game done, and bumps the ghost invocation counter. -/
def end_game (s : WState) : WState :=
  let finalScores := s.playerScores
  let maxScore := maxScoreOf finalScores
  let winners := (List.range 4).filter (fun p => decide (finalScores p = maxScore))
  let s := addObs GAME_ID (-1) .gameOverHeader .gameActionDescription s
  let s := (List.range 4).foldl
    (fun t p => addObs GAME_ID (-1) (.finalScore p (finalScores p)) .gameActionDescription t) s
  let s := {s with winners := winners, winnersSet := true}
  let rewards : Nat → Int :=
    if 0 < maxScore then fun p => if winners.contains p then 1 else -1
    else fun _ => 0
  {s with rewards := rewards, rewardsSet := true, done := true,
          endGameCalls := s.endGameCalls + 1}

/-- `_check_phase_transition`. -/
def check_phase_transition (s : WState) : WState :=
  match s.currentPhase with
  | .talk =>
    let r := s.currentRound
    let s := {s with currentPhase := .act, playerChoices := [], currentPlayerId := 0}
    addObs GAME_ID (-1) (.talkPhaseEnded r) .gameActionDescription s
  | .act =>
    let r := s.currentRound
    let s := score_round s
    if 10 ≤ r then end_game s
    else
      let nr := r + 1
      if isCommRound nr then
        let s := {s with currentRound := nr, currentPhase := .talk, talkRound := 0,
                         playersPassed := [], currentPlayerId := 0}
        addObs GAME_ID (-1) (.talkPhaseBegins nr) .gameActionDescription s
      else
        let s := {s with currentRound := nr, currentPhase := .act,
                         playerChoices := [], currentPlayerId := 0}
        addObs GAME_ID (-1) (.chooseRound nr) .gameActionDescription s

/-- `_check_game_end`. -/
def check_game_end (s : WState) : WState :=
  if 10 ≤ s.currentRound ∧ s.currentPhase = WPhase.act then
    if 10 ≤ s.roundHistory.length then end_game s else s
  else s

/-- Modelled from the spec: `state.step(rotate_player=False)` of the core
advances the internal turn counter and reports whether the game is done;
player rotation is managed by the environment itself. -/
def coreStep (s : WState) : WState :=
  {s with turn := s.turn + 1}

/-- The block of `step` that runs after a successful action: increment the
talk round / test phase completion, transition the phase when it ended, and
check for game end. -/
def success_checks (s : WState) : WState :=
  let pr := check_if_phase_should_end s
  let s := if pr.1 then check_phase_transition pr.2 else pr.2
  check_game_end s

/-- The tail of `step`: after a successful action (and only while the game
is running), advance `current_player_id` to the next actor of the current
phase. -/
def advance_after (success : Bool) (s : WState) : WState :=
  if success ∧ s.done = false then
    match s.currentPhase with
    | .talk =>
      if 0 < s.talkRound then
        match get_next_talk_player s with
        | some nt => {s with currentPlayerId := nt}
        | none => s
      else s
    | .act =>
      match get_next_player_needing_choice s with
      | some nc => {s with currentPlayerId := nc}
      | none => s
  else s

/-- `WinAsMuchAsYouCanEnv.step`: echo the action (privately for whispers),
process it, run the phase-transition and game-end checks on success, let the
core advance, and finally pick the next actor.  Returns the `done` flag and
the new state. -/
def stepW (s : WState) (action : Str) : Bool × WState :=
  let pid := s.currentPlayerId
  let s :=
    if (whisperSearch action).isSome then
      addObs (Int.ofNat pid) (Int.ofNat pid) (.playerActionEcho action) .playerAction s
    else
      addObs (Int.ofNat pid) (-1) (.playerActionEcho action) .playerAction s
  let (success, s) := process_action s pid action
  let s := if success then success_checks s else s
  let s := coreStep s
  let done := s.done
  (done, advance_after success s)

/-- `reset(num_players=4)`: the initial state. -/
def resetW : WState where
  currentRound := 1
  currentPhase := .act
  playerChoices := []
  playerScores := fun _ => 0
  roundHistory := []
  talkRound := 0
  maxTalkRounds := 40
  playersPassed := []
  talkMessages := []
  currentPlayerId := 0
  turn := 0
  done := false
  observations := []
  strikes := []
  rewards := fun _ => 0
  rewardsSet := false
  winners := []
  winnersSet := false
  endGameCalls := 0

/-- Play a scripted sequence of actions from the initial state. -/
def runW (actions : List Str) : WState :=
  actions.foldl (fun s a => (stepW s a).2) resetW

/-- Four `[Choose Y]` actions (one full act phase). -/
def chooseYs : List Str := List.replicate 4 "[Choose Y]".toList

/-- Four `[Pass]` actions (ending a talk phase immediately). -/
def passes : List Str := List.replicate 4 "[Pass]".toList

/-- A complete 10-round play: every player always chooses Y, and every talk
phase is ended by four immediate passes. -/
def fullGameScript : List Str :=
  chooseYs ++ chooseYs ++ chooseYs ++ chooseYs
    ++ passes ++ chooseYs
    ++ chooseYs ++ chooseYs
    ++ passes ++ chooseYs
    ++ chooseYs
    ++ passes ++ chooseYs

/-- Whether an observation is delivered to player `pid`
(`to_id = -1` broadcasts; sending to `pid` targets that player). -/
def deliveredTo (pid : Nat) (o : WObs) : Bool :=
  o.toId == -1 || o.toId == Int.ofNat pid

/-- The feed of player `pid`: the observations delivered to them. -/
def feedTo (pid : Nat) (l : List WObs) : List WObs :=
  l.filter (deliveredTo pid)

/-- A reachable talk-phase state: the play after the 16 act choices of
rounds 1-4, on entry to the round-5 talk phase (player 0 to speak,
`talk_round = 0`, nobody passed, no strikes). -/
def talkState5 : WState :=
  runW (chooseYs ++ chooseYs ++ chooseYs ++ chooseYs)

end WinAsMuchAsYouCan

/-! ## VendorNegotiation (`textarena/envs/VendorNegotiation/env.py`)

Two players (0 = Brand Specialist, 1 = Vendor) negotiate discount rates over
a fixed product list.  CSV loading, role files and the random product
sampling of `reset` are external I/O per the spec; the selected products and
their per-discount data rows enter the model as parameters of `VNEnv`.  The
NumPy global random generator consumed by `np.random.normal` is modelled as
a stream of standard-normal draws plus a cursor (`rngCursor`): a batch of
`num_simulations` draws advances the cursor by `num_simulations`.
-/

namespace VendorNegotiation

/-- One row of the per-product, per-discount CSV data. -/
structure PRow where
  meanUnits : ℚ
  stdUnits : ℚ
  meanSales : ℚ
  meanProfit : ℚ

/-- The data of one product: unit price, unit cost, and the per-discount
rows. -/
structure PData where
  price : ℚ
  cost : ℚ
  data : Nat → PRow

/-- The environment configuration produced by `__init__`/`reset`. -/
structure VNEnv where
  selectedProducts : List String
  products : String → PData
  allowedDiscounts : List Nat
  maxRounds : Nat
  brandTargetPercentage : ℚ
  vendorBaselineMultiplier : ℚ
  numSimulations : Nat
  /-- Modelled from the spec: the stream of standard-normal draws behind the
  NumPy global generator. -/
  stream : Nat → ℚ

/-- `_get_max_discount_rate`. -/
def max_discount_rate (e : VNEnv) : Nat :=
  match e.allowedDiscounts with
  | [] => 30
  | d :: ds => ds.foldl max d

/-- `re.findall(r'(\d+)%', s)`: every maximal digit run immediately followed
by `%` (the accumulator carries the current run, reversed). -/
def findPercentsAux : Str → Str → List Str
  | _, [] => []
  | run, c :: cs =>
    if c.isDigit then findPercentsAux (c :: run) cs
    else if c = '%' ∧ run ≠ [] then run.reverse :: findPercentsAux [] cs
    else findPercentsAux [] cs

/-- `re.findall(r'(\d+)%', s)`. -/
def findPercents (s : Str) : List Str := findPercentsAux [] s

/-- Simulation statistics for one product
(`_calculate_actual_sales` result entry). -/
structure SimResult where
  discount : Nat
  avgUnits : ℚ
  avgSales : ℚ
  avgProfit : ℚ
deriving DecidableEq, Repr

/-- Structured rendering of the messages the environment emits. -/
inductive VMsg where
  /-- `"Your action: {action}"` -/
  | actionEcho (action : Str)
  /-- `"Player {pid}: {message}"` (free-text conversation broadcast) -/
  | conversationMsg (pid : Nat) (message : Str)
  /-- `"Player {pid} proposed: ..."` -/
  | proposalMsg (pid : Nat) (discounts : List (String × Nat))
  /-- `"Player {pid} accepted the proposal"` -/
  | acceptedMsg (pid : Nat)
  /-- `"Player {pid} rejected the proposal"` -/
  | rejectedMsg (pid : Nat)
  /-- `render_final_results(...)` (rendering itself is out of scope; the
  constructor carries the data rendered) -/
  | finalResults (discounts : List (String × Nat)) (results : List (String × SimResult))
      (brandWon vendorWon : Bool)
  /-- `render_no_deal(...)` -/
  | noDealMsg
deriving DecidableEq, Repr

/-- One delivered observation of the negotiation environment. -/
structure VObs where
  fromId : Int
  toId : Int
  msg : VMsg
  otype : ObsType
deriving DecidableEq, Repr

/-- The reasons passed to `set_invalid_move`, one constructor per message of
the source (`wasAccept` distinguishes the `accept`/`reject` wording). -/
inductive VNReason where
  /-- `"Multiple actions detected. Use only one action per turn"` -/
  | multipleActions
  /-- `"Invalid proposal format. Use: [Propose] X%, Y%, Z%, ..."` -/
  | invalidProposalFormat
  /-- `"Proposal must include all products. ..."` -/
  | missingProducts
  /-- `"Invalid discount {d}% for {product}. Allowed: ..."` -/
  | invalidDiscount (d : Nat)
  /-- `"No current proposal to accept"` / `"... to reject"` -/
  | noProposal (wasAccept : Bool)
  /-- `"You cannot accept your own proposal"` / `"... reject ..."` -/
  | ownProposal (wasAccept : Bool)
deriving DecidableEq, Repr

/-- The `type` field of a `negotiation_history` record. -/
inductive NType where
  | propose
  | accept
  | reject
  | conversation
deriving DecidableEq, Repr

/-- One `negotiation_history` record. -/
structure NegRecord where
  player : Nat
  ntype : NType
  discounts : Option (List (String × Nat))
  round : Nat
deriving DecidableEq, Repr

/-- One `conversation_history` record. -/
structure ConvRecord where
  player : Nat
  message : Str
  round : Nat
deriving DecidableEq, Repr

/-- Modelled from the spec: the final outcome set through
`set_winner`/`set_draw` (the Boolean distinguishes the both-won draw from
the both-lost draw reason). -/
inductive VNOutcome where
  | draw (bothWon : Bool)
  | winner (pid : Nat)
deriving DecidableEq, Repr

/-- The environment state: the env instance attributes plus the relevant
TextArena `TwoPlayerState` fields. -/
structure VNState where
  env : VNEnv
  brandTarget : ℚ
  vendorBaseline : ℚ
  currentProposal : Option (List (String × Nat) × Nat)
  negotiationHistory : List NegRecord
  conversationHistory : List ConvRecord
  currentPlayerId : Nat
  turn : Nat
  done : Bool
  rngCursor : Nat
  observations : List VObs
  strikes : List (Nat × VNReason)
  outcome : Option VNOutcome

/-- `add_observation` for the negotiation environment. -/
def addVObs (fromId toId : Int) (m : VMsg) (ot : ObsType) (s : VNState) : VNState :=
  {s with observations := s.observations ++ [⟨fromId, toId, m, ot⟩]}

/-- Modelled from the spec: `set_invalid_move` charges a strike with the
reason (Error/Validity Ledger, §4.5). -/
def setVInvalid (pid : Nat) (r : VNReason) (s : VNState) : VNState :=
  {s with strikes := s.strikes ++ [(pid, r)]}

/-- `reset(num_players=2)`: targets computed from the selected products, all
histories empty, Brand Specialist (player 0) to act first. -/
def resetVN (e : VNEnv) : VNState where
  env := e
  brandTarget := e.brandTargetPercentage *
    (e.selectedProducts.map (fun p => ((e.products p).data (max_discount_rate e)).meanSales)).sum
  vendorBaseline := e.vendorBaselineMultiplier *
    (e.selectedProducts.map (fun p => ((e.products p).data 0).meanProfit)).sum
  currentProposal := none
  negotiationHistory := []
  conversationHistory := []
  currentPlayerId := 0
  turn := 0
  done := false
  rngCursor := 0
  observations := []
  strikes := []
  outcome := none

/-- `"[Propose]" in action`. -/
def hasPropose (a : Str) : Bool := litFound "[Propose]".toList a

/-- `"[Accept]" in action`. -/
def hasAccept (a : Str) : Bool := litFound "[Accept]".toList a

/-- `"[Reject]" in action`. -/
def hasReject (a : Str) : Bool := litFound "[Reject]".toList a

/-- `_extract_proposal_discounts`: the percentages found in the segment
after the first `[Propose]` (and before a second one, per `split`), mapped
positionally onto the selected products. -/
def extract_proposal_discounts (e : VNEnv) (a : Str) : Option (List (String × Nat)) :=
  match litSearch "[Propose]".toList a with
  | none => none
  | some rest =>
    let seg := stripStr (takeUntilLit "[Propose]".toList rest)
    let ms := findPercents seg
    if ms = [] then none
    else if ms.length ≠ e.selectedProducts.length then none
    else some (e.selectedProducts.zip (ms.map digitsToNat))

/-- `_is_valid_proposal`, returning `none` when valid and the
`set_invalid_move` reason otherwise.  The source's key-set comparison always
passes here because `_extract_proposal_discounts` keys the result by exactly
the selected products; it is kept as a list comparison for fidelity. -/
def is_valid_proposal (s : VNState) (a : Str) : Option VNReason :=
  match extract_proposal_discounts s.env a with
  | none => some .invalidProposalFormat
  | some ds =>
    if ds.map Prod.fst ≠ s.env.selectedProducts then some .missingProducts
    else
      match ds.find? (fun pd => !(s.env.allowedDiscounts.contains pd.2)) with
      | some pd => some (.invalidDiscount pd.2)
      | none => none

/-- `_is_valid_action`, returning `none` when valid and the
`set_invalid_move` reason otherwise. -/
def is_valid_action (s : VNState) (a : Str) : Option VNReason :=
  let a := stripStr a
  let p := hasPropose a
  let ac := hasAccept a
  let rj := hasReject a
  let count := (if p then 1 else 0) + (if ac then 1 else 0) + (if rj then 1 else 0)
  if count = 0 then none
  else if 1 < count then some .multipleActions
  else if p then is_valid_proposal s a
  else
    match s.currentProposal with
    | none => some (.noProposal ac)
    | some (_, proposer) =>
      if proposer = s.currentPlayerId then some (.ownProposal ac) else none

/-- `_record_action`. -/
def record_action (s : VNState) (pid : Nat) (t : NType)
    (ds : Option (List (String × Nat))) : VNState :=
  {s with negotiationHistory := s.negotiationHistory ++ [⟨pid, t, ds, s.turn + 1⟩]}

/-- The `conversation_part` bookkeeping shared by the three command
processors: record the text before the marker when it is nonempty. -/
def record_conv_part (s : VNState) (pid : Nat) (part : Str) : VNState :=
  if part = [] then s
  else {s with conversationHistory := s.conversationHistory ++ [⟨pid, part, s.turn + 1⟩]}

/-- `_process_conversation`. -/
def process_conversation (s : VNState) (pid : Nat) (a : Str) : VNState :=
  let s := {s with conversationHistory := s.conversationHistory ++ [⟨pid, a, s.turn + 1⟩]}
  let s := record_action s pid .conversation none
  addVObs GAME_ID (-1) (.conversationMsg pid a) .gameMessage s

/-- `_process_proposal` (the `none` branch is unreachable after
validation). -/
def process_proposal (s : VNState) (pid : Nat) (a : Str) : VNState :=
  match extract_proposal_discounts s.env a with
  | none => s
  | some ds =>
    let conv := stripStr (takeUntilLit "[Propose]".toList a)
    let s := record_conv_part s pid conv
    let s := {s with currentProposal := some (ds, pid)}
    let s := record_action s pid .propose (some ds)
    addVObs GAME_ID (-1) (.proposalMsg pid ds) .gameActionDescription s

/-- `_process_accept`. -/
def process_accept (s : VNState) (pid : Nat) (a : Str) : VNState :=
  let conv := stripStr (takeUntilLit "[Accept]".toList a)
  let s := record_conv_part s pid conv
  let s := record_action s pid .accept none
  addVObs GAME_ID (-1) (.acceptedMsg pid) .gameActionDescription s

/-- `_process_reject`: records the action, clears the current proposal, and
announces the rejection. -/
def process_reject (s : VNState) (pid : Nat) (a : Str) : VNState :=
  let conv := stripStr (takeUntilLit "[Reject]".toList a)
  let s := record_conv_part s pid conv
  let s := record_action s pid .reject none
  let s := {s with currentProposal := none}
  addVObs GAME_ID (-1) (.rejectedMsg pid) .gameActionDescription s

/-- `_process_valid_action`. -/
def process_valid_action (s : VNState) (pid : Nat) (a : Str) : VNState :=
  let a := stripStr a
  if hasPropose a then process_proposal s pid a
  else if hasAccept a then process_accept s pid a
  else if hasReject a then process_reject s pid a
  else process_conversation s pid a

/-- `_check_deal_accepted`. -/
def check_deal_accepted (s : VNState) : Bool :=
  match s.currentProposal with
  | none => false
  | some (_, proposer) =>
    match s.negotiationHistory.getLast? with
    | some last => last.ntype == NType.accept && last.player != proposer
    | none => false

/-- The Monte Carlo simulation of one product at one discount rate,
consuming the `numSimulations` draws starting at `cursor`
(`np.maximum(0, np.random.normal(mean_units, std_units, size=n))` and the
vectorised sales/profit computations). -/
def simProduct (e : VNEnv) (name : String) (d : Nat) (cursor : Nat) : SimResult :=
  let pd := e.products name
  let row := pd.data d
  let n := e.numSimulations
  let units := (List.range n).map
    (fun i => max 0 (row.meanUnits + row.stdUnits * e.stream (cursor + i)))
  let dm : ℚ := 1 - (d : ℚ) / 100
  let sales := units.map (fun u => u * pd.price * dm)
  let profit := units.map (fun u => u * (pd.price * dm - pd.cost))
  ⟨d, units.sum / (n : ℚ), sales.sum / (n : ℚ), profit.sum / (n : ℚ)⟩

/-- `_calculate_actual_sales`: per-product simulation in proposal order;
returns the per-product statistics and the advanced stream cursor. -/
def calculate_actual_sales (s : VNState) (ds : List (String × Nat)) :
    List (String × SimResult) × Nat :=
  ds.foldl
    (fun acc pd =>
      (acc.1 ++ [(pd.1, simProduct s.env pd.1 pd.2 acc.2)], acc.2 + s.env.numSimulations))
    ([], s.rngCursor)

/-- `_set_final_rewards`. -/
def set_final_rewards (s : VNState) (brandWon vendorWon : Bool) : VNState :=
  if brandWon && vendorWon then {s with outcome := some (.draw true)}
  else if brandWon then {s with outcome := some (.winner 0)}
  else if vendorWon then {s with outcome := some (.winner 1)}
  else {s with outcome := some (.draw false)}

/-- `_finalize_accepted_deal` (the `none` branch is unreachable: an accepted
deal has a current proposal). -/
def finalize_accepted_deal (s : VNState) : VNState :=
  match s.currentProposal with
  | none => s
  | some (ds, _) =>
    let rc := calculate_actual_sales s ds
    let results := rc.1
    let totalSales := (results.map (fun r => r.2.avgSales)).sum
    let totalProfit := (results.map (fun r => r.2.avgProfit)).sum
    let brandWon := decide (totalSales ≥ s.brandTarget)
    let vendorWon := decide (totalProfit > s.vendorBaseline)
    let s := {s with rngCursor := rc.2}
    let s := addVObs GAME_ID (-1) (.finalResults ds results brandWon vendorWon) .gameAdmin s
    set_final_rewards s brandWon vendorWon

/-- `_handle_no_deal`. -/
def handle_no_deal (s : VNState) : VNState :=
  let s := addVObs GAME_ID (-1) .noDealMsg .gameAdmin s
  set_final_rewards s false false

/-- `_end_game`. -/
def vn_end_game (s : VNState) (dealAccepted : Bool) : VNState :=
  let s := if dealAccepted then finalize_accepted_deal s else handle_no_deal s
  {s with done := true}

/-- Modelled from the spec: `TwoPlayerState.step()` reports whether the game
is done, advances the turn counter and rotates the current player. -/
def vnCoreStep (s : VNState) : Bool × VNState :=
  (s.done, {s with turn := s.turn + 1, currentPlayerId := 1 - s.currentPlayerId})

/-- `VendorNegotiationEnv.step`. -/
def stepVN (s : VNState) (action : Str) : Bool × VNState :=
  let pid := s.currentPlayerId
  let s := addVObs (Int.ofNat pid) (Int.ofNat pid) (.actionEcho action) .playerAction s
  let s :=
    match is_valid_action s action with
    | none => process_valid_action s pid action
    | some r => setVInvalid pid r s
  let dealAccepted := check_deal_accepted s
  let maxTurnsReached := s.env.maxRounds - 1 ≤ s.turn
  let s := if dealAccepted || maxTurnsReached then vn_end_game s dealAccepted else s
  vnCoreStep s

/-- The data fed into the board rendering of `get_board_str` (text layout is
out of scope; the constructors carry the rendered data). -/
inductive VNBoard where
  | finalResults (discounts : List (String × Nat)) (results : List (String × SimResult))
      (brandWon vendorWon : Bool)
  | noDeal
  | ongoing (proposal : Option (List (String × Nat) × Nat))
      (history : List NegRecord) (conversation : List ConvRecord)
      (round maxRounds : Nat)
deriving DecidableEq, Repr

/-- `get_board_str`: after the game is done with an accepted deal it re-runs
the Monte Carlo simulation (consuming fresh draws, hence also returning the
updated state); otherwise it renders the no-deal result or the ongoing
state. -/
def get_board_str (s : VNState) : VNBoard × VNState :=
  if s.done then
    match s.currentProposal with
    | some (ds, _) =>
      if check_deal_accepted s then
        let rc := calculate_actual_sales s ds
        let results := rc.1
        let totalSales := (results.map (fun r => r.2.avgSales)).sum
        let totalProfit := (results.map (fun r => r.2.avgProfit)).sum
        let brandWon := decide (totalSales ≥ s.brandTarget)
        let vendorWon := decide (totalProfit > s.vendorBaseline)
        (.finalResults ds results brandWon vendorWon, {s with rngCursor := rc.2})
      else (.noDeal, s)
    | none => (.noDeal, s)
  else
    (.ongoing s.currentProposal s.negotiationHistory s.conversationHistory
      (s.turn + 1) s.env.maxRounds, s)

/-- A concrete one-product configuration used for the executable scenarios:
product `"A"` priced 100 at cost 50, with unit-sales mean 10 and standard
deviation 1 at discount 20, and the draw stream `0, 1, 2, ...`. -/
def testEnv : VNEnv where
  selectedProducts := ["A"]
  products := fun _ =>
    { price := 100, cost := 50,
      data := fun d =>
        if d = 20 then ⟨10, 1, 800, 300⟩ else ⟨12, 1, 1200, 600⟩ }
  allowedDiscounts := [0, 20]
  maxRounds := 20
  brandTargetPercentage := 95 / 100
  vendorBaselineMultiplier := 3 / 2
  numSimulations := 1
  stream := fun i => (i : ℚ)

/-- The accepted-deal scenario: player 0 proposes 20%, player 1 accepts. -/
def acceptedDealState : VNState :=
  (stepVN (stepVN (resetVN testEnv) "[Propose] 20%".toList).2 "I accept [Accept]".toList).2

/-- The state after player 0's opening proposal (player 1 to act). -/
def proposedState : VNState :=
  (stepVN (resetVN testEnv) "[Propose] 20%".toList).2

/-- The state after player 1 rejects the opening proposal (no current
proposal, player 0 to act). -/
def rejectedState : VNState :=
  (stepVN proposedState "[Reject]".toList).2

/-- The one-product configuration with zero sales variance (every data row
has `std_units = 0`). -/
def zeroVarEnv : VNEnv where
  selectedProducts := ["A"]
  products := fun _ =>
    { price := 100, cost := 50,
      data := fun d =>
        if d = 20 then ⟨10, 0, 800, 300⟩ else ⟨12, 0, 1200, 600⟩ }
  allowedDiscounts := [0, 20]
  maxRounds := 20
  brandTargetPercentage := 95 / 100
  vendorBaselineMultiplier := 3 / 2
  numSimulations := 1
  stream := fun i => (i : ℚ)

/-- The zero-variance accepted-deal scenario. -/
def zeroVarAcceptedState : VNState :=
  (stepVN (stepVN (resetVN zeroVarEnv) "[Propose] 20%".toList).2 "I accept [Accept]".toList).2

end VendorNegotiation



/-! ## Helper lemmas -/

set_option maxRecDepth 1000000
set_option maxHeartbeats 1000000

namespace WinAsMuchAsYouCan

/-- `addObs` as a single record update (for pushing projections through). -/
theorem addObs_def (f t : Int) (m : WMsg) (o : ObsType) (s : WState) :
    addObs f t m o s = {s with observations := s.observations ++ [⟨f, t, m, o⟩]} := rfl

/-- `setInvalid` as a single record update. -/
theorem setInvalid_def (pid : Nat) (r : WReason) (s : WState) :
    setInvalid pid r s = {s with strikes := s.strikes ++ [(pid, r)]} := rfl

/-- The four players. -/
theorem range4 : List.range 4 = [0, 1, 2, 3] := rfl

/-- `_end_game` always marks the game done. -/
theorem end_game_done (s : WState) : (end_game s).done = true := by
  simp [end_game, addObs_def, range4]

/-- The winner list computed by `_end_game`. -/
theorem end_game_winners (s : WState) :
    (end_game s).winners = (List.range 4).filter
      (fun p => decide (s.playerScores p = maxScoreOf s.playerScores)) := by
  simp [end_game, addObs_def, range4]

/-- The reward assignment computed by `_end_game`. -/
theorem end_game_rewards (s : WState) :
    (end_game s).rewards =
      if 0 < maxScoreOf s.playerScores then
        (fun p => if ((List.range 4).filter
            (fun p => decide (s.playerScores p = maxScoreOf s.playerScores))).contains p
          then (1 : Int) else -1)
      else fun _ => 0 := by
  simp [end_game, addObs_def, range4]

/-- The observations appended by `_end_game`. -/
theorem end_game_observations (s : WState) :
    (end_game s).observations = s.observations ++
      [⟨GAME_ID, -1, .gameOverHeader, .gameActionDescription⟩,
       ⟨GAME_ID, -1, .finalScore 0 (s.playerScores 0), .gameActionDescription⟩,
       ⟨GAME_ID, -1, .finalScore 1 (s.playerScores 1), .gameActionDescription⟩,
       ⟨GAME_ID, -1, .finalScore 2 (s.playerScores 2), .gameActionDescription⟩,
       ⟨GAME_ID, -1, .finalScore 3 (s.playerScores 3), .gameActionDescription⟩] := by
  simp [end_game, addObs_def, range4]

/-- `_end_game` does not charge strikes. -/
theorem end_game_strikes (s : WState) : (end_game s).strikes = s.strikes := by
  simp [end_game, addObs_def, range4]

/-- `advance_after` never changes the observation log. -/
theorem advance_after_observations (b : Bool) (s : WState) :
    (advance_after b s).observations = s.observations := by
  unfold advance_after
  split
  · cases s.currentPhase <;> dsimp only
    · split
      · split <;> rfl
      · rfl
    · split <;> rfl
  · rfl

/-- `coreStep` only advances the turn counter. -/
theorem coreStep_eq (s : WState) : coreStep s = {s with turn := s.turn + 1} := rfl

/-- `coreStep` never changes the observation log. -/
theorem coreStep_observations (s : WState) : (coreStep s).observations = s.observations := rfl

/-- The private-notice loop of `_process_talk_phase` appends one notice per
non-involved player. -/
theorem notices_fold_eq (s0 : WState) (cp t : Nat) :
    List.foldl (fun st q => if q ≠ cp ∧ q ≠ t then
        {st with observations := st.observations ++
          [⟨GAME_ID, Int.ofNat q, .privateNotice, .gameActionDescription⟩]} else st)
      s0 [0, 1, 2, 3]
    = {s0 with observations := (s0.observations ++
        (([0, 1, 2, 3] : List Nat).filter (fun q => decide (q ≠ cp ∧ q ≠ t))).map
          (fun q => ⟨GAME_ID, Int.ofNat q, .privateNotice, .gameActionDescription⟩))} := by
  by_cases h0 : (0 : Nat) ≠ cp ∧ (0 : Nat) ≠ t <;>
    by_cases h1 : (1 : Nat) ≠ cp ∧ (1 : Nat) ≠ t <;>
    by_cases h2 : (2 : Nat) ≠ cp ∧ (2 : Nat) ≠ t <;>
    by_cases h3 : (3 : Nat) ≠ cp ∧ (3 : Nat) ≠ t <;>
    simp [List.foldl, List.filter, h0, h1, h2, h3]

/-- Normal form of `_process_talk_phase` on a valid whisper: the message is
delivered to the target, confirmed to the sender, announced content-free to
everyone else, and recorded in the talk history. -/
theorem process_talk_whisper_eq (s : WState) (pid : Nat) (a d b : Str)
    (hpass : s.playersPassed.contains pid = false)
    (hb : broadcastSearch a = none)
    (hw : whisperSearch a = some (d, b))
    (hlt : digitsToNat d < 4)
    (hne : digitsToNat d ≠ pid)
    (hmsg : stripStr b ≠ []) :
    process_talk_phase s pid a =
      (true,
        {s with
          observations := s.observations ++
            [⟨GAME_ID, Int.ofNat (digitsToNat d),
              .privateMsg pid (stripStr b), .gameActionDescription⟩,
             ⟨GAME_ID, Int.ofNat pid,
              .privateConfirm (digitsToNat d) (stripStr b), .gameActionDescription⟩] ++
            ((List.range 4).filter
              (fun q => decide (q ≠ pid ∧ q ≠ digitsToNat d))).map
              (fun q => ⟨GAME_ID, Int.ofNat q, .privateNotice, .gameActionDescription⟩),
          talkMessages := s.talkMessages ++
            [⟨s.currentRound, s.talkRound, pid,
              .player (digitsToNat d), stripStr b, true⟩]}) := by
  simp only [process_talk_phase, hpass, Bool.false_eq_true, if_false, hb, hw, addObs_def, range4]
  rw [if_neg (by omega), if_neg hne, if_neg (by simp [hmsg]), notices_fold_eq]
  simp [List.append_assoc]

end WinAsMuchAsYouCan

namespace WinAsMuchAsYouCan

/-- The observations appended by the post-success checks of `step` in a talk
phase are determined by the control fields (talk round, passed set, round
number, round history and scores) alone. -/
theorem success_checks_talk_obs (σ : WState) (hph : σ.currentPhase = WPhase.talk) :
    (success_checks σ).observations = σ.observations ++
      (if σ.talkRound + 1 ≥ σ.maxTalkRounds ∨ 4 ≤ σ.playersPassed.length then
        (⟨GAME_ID, -1, .talkPhaseEnded σ.currentRound, .gameActionDescription⟩ ::
          (if 10 ≤ σ.currentRound ∧ 10 ≤ σ.roundHistory.length then
            [⟨GAME_ID, -1, .gameOverHeader, .gameActionDescription⟩,
             ⟨GAME_ID, -1, .finalScore 0 (σ.playerScores 0), .gameActionDescription⟩,
             ⟨GAME_ID, -1, .finalScore 1 (σ.playerScores 1), .gameActionDescription⟩,
             ⟨GAME_ID, -1, .finalScore 2 (σ.playerScores 2), .gameActionDescription⟩,
             ⟨GAME_ID, -1, .finalScore 3 (σ.playerScores 3), .gameActionDescription⟩]
           else []))
       else []) := by
  simp only [success_checks, check_if_phase_should_end, hph]
  by_cases hc1 : σ.talkRound + 1 ≥ σ.maxTalkRounds
  · simp only [hc1, ge_iff_le, if_true, if_pos, true_or]
    simp only [check_phase_transition, hph, addObs_def, check_game_end]
    by_cases hc3 : 10 ≤ σ.currentRound
    · by_cases hc4 : 10 ≤ σ.roundHistory.length
      · simp [hc1, hc3, hc4, end_game_observations]
      · simp [hc1, hc3, hc4]
    · simp [hc1, hc3]
  · by_cases hc2 : 4 ≤ σ.playersPassed.length
    · simp only [hc1, hc2, ge_iff_le, if_true, if_false, or_true]
      simp only [check_phase_transition, hph, addObs_def, check_game_end]
      by_cases hc3 : 10 ≤ σ.currentRound
      · by_cases hc4 : 10 ≤ σ.roundHistory.length
        · simp [hc3, hc4, end_game_observations]
        · simp [hc3, hc4]
      · simp [hc3]
    · simp [hc1, hc2, check_game_end, hph]

end WinAsMuchAsYouCan

namespace VendorNegotiation

/-- `addVObs` as a single record update. -/
theorem addVObs_def (f t : Int) (m : VMsg) (o : ObsType) (s : VNState) :
    addVObs f t m o s = {s with observations := s.observations ++ [⟨f, t, m, o⟩]} := rfl

/-- `setVInvalid` as a single record update. -/
theorem setVInvalid_def (pid : Nat) (r : VNReason) (s : VNState) :
    setVInvalid pid r s = {s with strikes := s.strikes ++ [(pid, r)]} := rfl

/-- `_set_final_rewards` only sets the outcome. -/
theorem set_final_rewards_eq (s : VNState) (b v : Bool) :
    set_final_rewards s b v =
      {s with outcome := some (if b && v then .draw true
        else if b then .winner 0 else if v then .winner 1 else .draw false)} := by
  cases b <;> cases v <;> rfl

/-- `_end_game` never changes the proposal, the histories or the strike
ledger (it only announces, sets the outcome, advances the draw cursor and
marks the game done). -/
theorem vn_end_game_preserves (s : VNState) (b : Bool) :
    (vn_end_game s b).conversationHistory = s.conversationHistory ∧
    (vn_end_game s b).negotiationHistory = s.negotiationHistory ∧
    (vn_end_game s b).currentProposal = s.currentProposal ∧
    (vn_end_game s b).strikes = s.strikes := by
  cases b with
  | false => simp [vn_end_game, handle_no_deal, addVObs_def, set_final_rewards_eq]
  | true =>
    cases hcp : s.currentProposal with
    | none => simp [vn_end_game, finalize_accepted_deal, hcp]
    | some pr =>
      simp [vn_end_game, finalize_accepted_deal, hcp, addVObs_def, set_final_rewards_eq]

/-- With no recognized marker, `_is_valid_action` accepts (in any state). -/
theorem is_valid_action_free_text (s : VNState) (a : Str)
    (hp : hasPropose (stripStr a) = false)
    (ha : hasAccept (stripStr a) = false)
    (hr : hasReject (stripStr a) = false) :
    is_valid_action s a = none := by
  simp [is_valid_action, hp, ha, hr]

end VendorNegotiation

/-! ## Claims -/

open WinAsMuchAsYouCan VendorNegotiation

/-- C1: the claim states that on every play reaching the end of round 10 the
end-of-game routine `_end_game` runs exactly once.  On the complete 10-round
play in which every player always chooses Y and ends each talk phase by
passing, `_end_game` is invoked twice — once from `_check_phase_transition`
(after scoring round 10) and immediately again from `_check_game_end`, which
`step` calls unconditionally after every successful action — so the code
violates the claim (the final-scores announcement is also duplicated in the
observation log). -/
theorem C1_end_game_invoked_twice :
    (runW fullGameScript).endGameCalls = 2 := by
  decide

/-- C2 counterexample: in the WinAsMuchAsYouCan talk phase (the reachable
round-5 talk state), submitting pure free-text commentary with no bracketed
marker is charged as an invalid action (`"Use [Broadcast] message, [Whisper
to X] message, or [Pass]"`), contradicting the claim that free text is never
invalid in every phase of both environments. -/
theorem C2_counterexample :
    (stepW talkState5 "Let us all cooperate this round".toList).2.strikes =
      [(0, WReason.useTalkCommands)] := by
  decide

/-- C2 as amended: free-text commentary with no recognized command marker is
always accepted (never charged) in VendorNegotiation, where it is recorded
as conversation; in WinAsMuchAsYouCan, an action with no recognized marker
is charged as an invalid action in both the talk and the act phase. -/
theorem C2_amended_free_text (sv : VNState) (av : Str)
    (hp : hasPropose (stripStr av) = false)
    (ha : hasAccept (stripStr av) = false)
    (hr : hasReject (stripStr av) = false)
    (st : WState) (pt : Nat) (at' : Str)
    (htphase : st.currentPhase = WPhase.talk)
    (htpass : st.playersPassed.contains pt = false)
    (htb : broadcastSearch at' = none)
    (htw : whisperSearch at' = none)
    (htp : passFound at' = false)
    (sa : WState) (pa : Nat) (aa : Str)
    (haphase : sa.currentPhase = WPhase.act)
    (hach : (sa.playerChoices.lookup pa).isSome = false)
    (hax : chooseFound 'X' aa = false)
    (hay : chooseFound 'Y' aa = false) :
    (is_valid_action sv av = none ∧
      (stepVN sv av).2.conversationHistory = sv.conversationHistory ++
        [⟨sv.currentPlayerId, stripStr av, sv.turn + 1⟩] ∧
      (stepVN sv av).2.strikes = sv.strikes) ∧
    process_talk_phase st pt at' = (false, setInvalid pt .useTalkCommands st) ∧
    process_act_phase sa pa aa = (false, setInvalid pa .useChooseCommands sa) := by
  have hv : ∀ x : VNState, is_valid_action x av = none :=
    fun x => is_valid_action_free_text x av hp ha hr
  refine ⟨⟨hv sv, ?_, ?_⟩, ?_, ?_⟩
  · simp only [stepVN, addVObs_def, hv]
    simp only [process_valid_action, hp, ha, hr, if_false, Bool.false_eq_true,
      process_conversation, record_action, addVObs_def]
    split
    · exact ((vn_end_game_preserves _ _).1).trans (by simp [vnCoreStep])
    · simp [vnCoreStep]
  · simp only [stepVN, addVObs_def, hv]
    simp only [process_valid_action, hp, ha, hr, if_false, Bool.false_eq_true,
      process_conversation, record_action, addVObs_def]
    split
    · exact ((vn_end_game_preserves _ _).2.2.2).trans (by simp [vnCoreStep])
    · simp [vnCoreStep]
  · simp only [process_talk_phase, htpass]
    simp [htb, htw, htp]
  · simp only [process_act_phase, hach]
    simp [hax, hay]

/-- C4 counterexample: in the accepted-deal scenario of the concrete
one-product configuration, two successive `get_board_str` calls after
`state.done` return different board values — each call re-runs the Monte
Carlo simulation on fresh random draws — refuting the claimed idempotence. -/
theorem C4_counterexample :
    (get_board_str acceptedDealState).1 ≠
      (get_board_str (get_board_str acceptedDealState).2).1 := by
  with_unfolding_all decide

/-- C5 counterexample: the talk-phase action `"[Broadcast] hi [Pass]"`
contains two distinct command kinds (a broadcast and a pass), yet
WinAsMuchAsYouCan charges no invalid action and executes the broadcast
(recording `"hi [Pass]"` as its message) — the ambiguity is silently
resolved by pattern priority, contradicting the claim. -/
theorem C5_counterexample :
    passFound "[Broadcast] hi [Pass]".toList = true ∧
    (broadcastSearch "[Broadcast] hi [Pass]".toList).isSome = true ∧
    (stepW talkState5 "[Broadcast] hi [Pass]".toList).2.strikes = [] ∧
    (stepW talkState5 "[Broadcast] hi [Pass]".toList).2.talkMessages =
      [⟨5, 0, 0, TalkTo.all, "hi [Pass]".toList, false⟩] := by
  decide

/-- C8 counterexample: when player 0 whispers to themselves in the round-5
talk state, the move is rejected and no talk message is recorded, but the
raw action — carrying the whisper text — is still echoed as an observation
delivered to player 0, contradicting the claim that no observation carrying
the whisper is delivered to any player. -/
theorem C8_counterexample :
    (stepW talkState5 "[Whisper to 0] hi".toList).2.observations =
      talkState5.observations ++
        [⟨Int.ofNat 0, Int.ofNat 0, WMsg.playerActionEcho "[Whisper to 0] hi".toList,
          ObsType.playerAction⟩] ∧
    (stepW talkState5 "[Whisper to 0] hi".toList).2.strikes = [(0, WReason.whisperSelf)] ∧
    (stepW talkState5 "[Whisper to 0] hi".toList).2.talkMessages = [] := by
  decide

/-- C10: in WinAsMuchAsYouCan's final reward assignment, when the maximum
total score is strictly positive every player holding the maximum receives
reward 1 and every other player receives -1; when the maximum is zero or
negative every player receives reward 0; and in all cases exactly the
maximum-score players are designated winners. -/
theorem C10_final_rewards (s : WState) (p : Nat) (hp : p < 4) :
    (0 < maxScoreOf s.playerScores →
      (end_game s).rewards p =
        if s.playerScores p = maxScoreOf s.playerScores then 1 else -1) ∧
    (maxScoreOf s.playerScores ≤ 0 → (end_game s).rewards p = 0) ∧
    (p ∈ (end_game s).winners ↔ s.playerScores p = maxScoreOf s.playerScores) := by
  refine ⟨?_, ?_, ?_⟩
  · intro h
    rw [end_game_rewards, if_pos h]
    by_cases hm : s.playerScores p = maxScoreOf s.playerScores
    · rw [if_pos hm]
      have : ((List.range 4).filter
          (fun q => decide (s.playerScores q = maxScoreOf s.playerScores))).contains p = true := by
        simp [List.contains, List.elem_iff, List.mem_filter, List.mem_range, hp, hm]
      rw [this, if_pos rfl]
    · rw [if_neg hm]
      have : ((List.range 4).filter
          (fun q => decide (s.playerScores q = maxScoreOf s.playerScores))).contains p = false := by
        simp [List.contains, List.elem_iff, List.mem_filter, List.mem_range, hm]
      rw [this]
      simp
  · intro h
    rw [end_game_rewards, if_neg (by omega)]
  · rw [end_game_winners]
    simp [List.mem_filter, List.mem_range, hp]

/-- C10 witness: a concrete score table with positive maximum (player 2 has
7, everyone else -3): player 2 is rewarded 1 and designated the winner. -/
theorem C10_final_rewards_witness :
    (2 : Nat) < 4 ∧
    ((end_game {resetW with playerScores := fun q => if q = 2 then 7 else -3}).rewards 2 =
      if ({resetW with playerScores := fun q => if q = 2 then 7 else -3} : WState).playerScores 2 =
          maxScoreOf ({resetW with playerScores := fun q => if q = 2 then 7 else -3} : WState).playerScores
        then 1 else -1) := by
  refine ⟨by decide, (C10_final_rewards _ 2 (by decide)).1 (by decide)⟩

/-- C6: on every live phase transition the per-phase state is freshly
reinitialized: whenever `_check_phase_transition` leaves the game running
and lands in the act phase the choice mapping is empty, and whenever it
lands in the talk phase the passed-player set is empty and the per-phase
exchange counter `talk_round` is zero. -/
theorem C6_phase_payload_reset (s : WState)
    (h : (check_phase_transition s).done = false) :
    ((check_phase_transition s).currentPhase = WPhase.act →
      (check_phase_transition s).playerChoices = []) ∧
    ((check_phase_transition s).currentPhase = WPhase.talk →
      (check_phase_transition s).playersPassed = [] ∧
        (check_phase_transition s).talkRound = 0) := by
  cases hph : s.currentPhase with
  | talk =>
    constructor
    · intro _
      simp [check_phase_transition, hph, addObs_def]
    · intro hact
      simp [check_phase_transition, hph, addObs_def] at hact
  | act =>
    by_cases hr : 10 ≤ s.currentRound
    · exfalso
      have : (check_phase_transition s).done = true := by
        simp [check_phase_transition, hph, hr, end_game_done]
      rw [this] at h
      exact Bool.noConfusion h
    · by_cases hc : isCommRound (s.currentRound + 1) = true
      · constructor
        · intro hact
          simp [check_phase_transition, hph, hr, hc, addObs_def] at hact
        · intro _
          simp [check_phase_transition, hph, hr, hc, addObs_def]
      · constructor
        · intro _
          simp [check_phase_transition, hph, hr, hc, addObs_def]
        · intro htalk
          simp [check_phase_transition, hph, hr, hc, addObs_def] at htalk

/-- C6 witness: the round-5 talk state transitions into the act phase with
an empty choice mapping. -/
theorem C6_phase_payload_reset_witness :
    (check_phase_transition talkState5).done = false ∧
    ((check_phase_transition talkState5).currentPhase = WPhase.act →
      (check_phase_transition talkState5).playerChoices = []) := by
  refine ⟨by decide, (C6_phase_payload_reset talkState5 (by decide)).1⟩

/-- C3: for every valid whisper from the current speaker to target `t` in a
talk phase, (a) the whisper-processing routine delivers to each player other
than the sender and the target exactly the content-free notice ("A private
message was sent between two players"), and (b) for the complete `step`, two
runs that differ only in the whispered content produce identical observation
feeds for every non-involved player. -/
theorem C3_whisper_privacy (s : WState) (a1 a2 d1 d2 b1 b2 : Str) (pid : Nat)
    (hphase : s.currentPhase = WPhase.talk)
    (hpass : s.playersPassed.contains s.currentPlayerId = false)
    (hb1 : broadcastSearch a1 = none) (hw1 : whisperSearch a1 = some (d1, b1))
    (hb2 : broadcastSearch a2 = none) (hw2 : whisperSearch a2 = some (d2, b2))
    (hsame : digitsToNat d2 = digitsToNat d1)
    (hlt : digitsToNat d1 < 4) (hne : digitsToNat d1 ≠ s.currentPlayerId)
    (hm1 : stripStr b1 ≠ []) (hm2 : stripStr b2 ≠ [])
    (hpid4 : pid < 4) (hpcp : pid ≠ s.currentPlayerId) (hpt : pid ≠ digitsToNat d1) :
    feedTo pid (process_talk_phase s s.currentPlayerId a1).2.observations =
      feedTo pid s.observations ++
        [⟨GAME_ID, Int.ofNat pid, .privateNotice, .gameActionDescription⟩] ∧
    feedTo pid (stepW s a1).2.observations = feedTo pid (stepW s a2).2.observations := by
  have hcp1 : (Int.ofNat s.currentPlayerId == (-1 : Int)) = false := by
    simp [beq_eq_false_iff_ne]
  have hcp2 : (Int.ofNat s.currentPlayerId == Int.ofNat pid) = false := by
    rw [beq_eq_false_iff_ne]
    exact fun h => Ne.symm hpcp (Int.ofNat.inj h)
  have ht1 : (Int.ofNat (digitsToNat d1) == (-1 : Int)) = false := by
    simp [beq_eq_false_iff_ne]
  have ht2 : (Int.ofNat (digitsToNat d1) == Int.ofNat pid) = false := by
    rw [beq_eq_false_iff_ne]
    exact fun h => Ne.symm hpt (Int.ofNat.inj h)
  constructor
  · rw [process_talk_whisper_eq s s.currentPlayerId a1 d1 b1 hpass hb1 hw1 hlt hne hm1]
    simp only [feedTo, List.filter_append, List.filter_map, List.filter_filter, range4]
    simp only [deliveredTo, List.filter, hcp1, hcp2, ht1, ht2, Bool.or_self, Bool.or_false,
      Bool.false_or, Function.comp]
    interval_cases pid <;>
      simp_all [deliveredTo, hpcp, hpt, List.filter]
  · simp only [stepW, hw1, hw2, Option.isSome_some, if_true, addObs_def, process_action, hphase]
    rw [process_talk_whisper_eq _ s.currentPlayerId a1 d1 b1 (by simpa using hpass) hb1 hw1
        hlt hne hm1,
      process_talk_whisper_eq _ s.currentPlayerId a2 d2 b2 (by simpa using hpass) hb2 hw2
        (by rw [hsame]; exact hlt) (by rw [hsame]; exact hne) hm2]
    simp only [if_true, ite_true]
    rw [advance_after_observations, advance_after_observations,
      coreStep_observations, coreStep_observations]
    rw [success_checks_talk_obs _ (by simpa using hphase),
      success_checks_talk_obs _ (by simpa using hphase)]
    simp only [feedTo, List.filter_append, List.filter, deliveredTo, hcp1, hcp2, ht1, ht2,
      hsame, Bool.or_self, Bool.false_or, Bool.or_false, List.append_assoc]

/-- C3 witness: in the round-5 talk state, player 0 whispering "attack" or
"retreat" to player 2 yields, for non-involved player 1, exactly the
content-free notice, and identical feeds across the two contents. -/
theorem C3_whisper_privacy_witness :
    (feedTo 1 (process_talk_phase talkState5 talkState5.currentPlayerId
        "[Whisper to 2] attack".toList).2.observations =
      feedTo 1 talkState5.observations ++
        [⟨GAME_ID, Int.ofNat 1, .privateNotice, .gameActionDescription⟩]) ∧
    feedTo 1 (stepW talkState5 "[Whisper to 2] attack".toList).2.observations =
      feedTo 1 (stepW talkState5 "[Whisper to 2] retreat".toList).2.observations :=
  C3_whisper_privacy talkState5 "[Whisper to 2] attack".toList "[Whisper to 2] retreat".toList
    "2".toList "2".toList "attack".toList "retreat".toList 1
    (by decide) (by decide) (by decide) (by decide) (by decide) (by decide) (by decide)
    (by decide) (by decide) (by decide) (by decide) (by decide) (by decide) (by decide)

namespace VendorNegotiation

/-- With zero sales variance, the per-product simulation does not depend on
the position in the draw stream. -/
theorem simProduct_cursor_free (e : VNEnv) (name : String) (d c c' : Nat)
    (h : ((e.products name).data d).stdUnits = 0) :
    simProduct e name d c = simProduct e name d c' := by
  simp [simProduct, h]

/-- With zero sales variance everywhere, the results of
`_calculate_actual_sales` do not depend on the starting cursor. -/
theorem calc_results_cursor_free (e : VNEnv)
    (h : ∀ name d, ((e.products name).data d).stdUnits = 0) :
    ∀ (ds : List (String × Nat)) (l : List (String × SimResult)) (c c' : Nat),
      (ds.foldl (fun acc pd =>
        (acc.1 ++ [(pd.1, simProduct e pd.1 pd.2 acc.2)], acc.2 + e.numSimulations)) (l, c)).1
      = (ds.foldl (fun acc pd =>
        (acc.1 ++ [(pd.1, simProduct e pd.1 pd.2 acc.2)], acc.2 + e.numSimulations)) (l, c')).1 := by
  intro ds
  induction ds with
  | nil => intro l c c'; rfl
  | cons pd ds ih =>
    intro l c c'
    simp only [List.foldl]
    rw [simProduct_cursor_free e pd.1 pd.2 c c' (h pd.1 pd.2)]
    exact ih _ _ _

/-- `_check_deal_accepted` does not read the draw cursor. -/
theorem check_deal_accepted_rngCursor (s : VNState) (c : Nat) :
    check_deal_accepted {s with rngCursor := c} = check_deal_accepted s := rfl

/-- `get_board_str` on a finished game with an accepted deal: re-simulate
and render the final results, advancing the draw cursor. -/
theorem get_board_str_accepted (s : VNState) (pr : List (String × Nat) × Nat)
    (hd : s.done = true) (hcp : s.currentProposal = some pr)
    (hacc : check_deal_accepted s = true) :
    get_board_str s =
      (VNBoard.finalResults pr.1 (calculate_actual_sales s pr.1).1
        (decide (((calculate_actual_sales s pr.1).1.map (fun r => r.2.avgSales)).sum ≥
          s.brandTarget))
        (decide (((calculate_actual_sales s pr.1).1.map (fun r => r.2.avgProfit)).sum >
          s.vendorBaseline)),
       {s with rngCursor := (calculate_actual_sales s pr.1).2}) := by
  simp [get_board_str, hd, hcp, hacc]

end VendorNegotiation

/-- C4 as amended: after `state.done`, each `get_board_str` call on an
accepted deal re-runs the Monte Carlo simulation on fresh draws, so
successive calls agree only when the draws cannot influence the result — in
particular, when every product data row has zero sales variance, two
successive `get_board_str` calls return identical board values. -/
theorem C4_amended_board_idempotent_zero_variance (s : VNState)
    (h : ∀ name d, ((s.env.products name).data d).stdUnits = 0) :
    (get_board_str s).1 = (get_board_str (get_board_str s).2).1 := by
  have hsim : ∀ (c : Nat) (ds : List (String × Nat)),
      (calculate_actual_sales {s with rngCursor := c} ds).1
        = (calculate_actual_sales s ds).1 := by
    intro c ds
    exact calc_results_cursor_free s.env h ds [] c s.rngCursor
  by_cases hd : s.done
  · cases hcp : s.currentProposal with
    | none => simp [get_board_str, hd, hcp]
    | some pr =>
      by_cases hacc : check_deal_accepted s
      · rw [get_board_str_accepted s pr hd hcp hacc]
        have hacc' : check_deal_accepted
            {s with rngCursor := (calculate_actual_sales s pr.1).2} = true := by
          rw [check_deal_accepted_rngCursor]
          exact hacc
        dsimp only
        have hd2 : ({s with rngCursor := (calculate_actual_sales s pr.1).2} : VNState).done
            = true := hd
        have hcp2 : ({s with rngCursor := (calculate_actual_sales s pr.1).2}
            : VNState).currentProposal = some pr := hcp
        rw [get_board_str_accepted _ pr hd2 hcp2 hacc']
        simp [hsim]
      · simp [get_board_str, hd, hcp, hacc]
  · simp [get_board_str, hd]

/-- C4 witness: in the zero-variance accepted-deal scenario, two successive
board renderings agree. -/
theorem C4_amended_witness :
    (∀ (n : String) (d : Nat), ((zeroVarAcceptedState.env.products n).data d).stdUnits = 0) ∧
    (get_board_str zeroVarAcceptedState).1 =
      (get_board_str (get_board_str zeroVarAcceptedState).2).1 := by
  have he : zeroVarAcceptedState.env = zeroVarEnv := by with_unfolding_all rfl
  have h : ∀ (n : String) (d : Nat),
      ((zeroVarAcceptedState.env.products n).data d).stdUnits = 0 := by
    intro n d
    rw [he]
    by_cases hd : d = 20 <;> simp [zeroVarEnv, hd]
  exact ⟨h, C4_amended_board_idempotent_zero_variance zeroVarAcceptedState h⟩

/-- C5 as amended: in VendorNegotiation an action containing more than one
distinct command kind is charged one invalid action ("Multiple actions
detected") and nothing is executed (proposal and histories unchanged, one
strike recorded).  In WinAsMuchAsYouCan such an action is never rejected for
ambiguity: the first matching pattern in the fixed priority order —
Broadcast, then Whisper, then Pass in the talk phase; Choose X, then
Choose Y in the act phase — is selected and processed as if it were the only
command, the remaining markers being ignored; the selected command's own
validation still applies (an empty broadcast body, an out-of-range target, a
self-whisper or an empty whisper body is charged for that reason, never for
the ambiguity).  Each conjunct below characterizes the outcome for an
arbitrary action as a function of the selected command alone. -/
theorem C5_amended_multiple_commands :
    (∀ (sv : VNState) (av : Str),
      2 ≤ ((if hasPropose (stripStr av) then 1 else 0) +
        (if hasAccept (stripStr av) then 1 else 0) +
        (if hasReject (stripStr av) then 1 else 0) : Nat) →
      is_valid_action sv av = some .multipleActions ∧
      (stepVN sv av).2.currentProposal = sv.currentProposal ∧
      (stepVN sv av).2.negotiationHistory = sv.negotiationHistory ∧
      (stepVN sv av).2.conversationHistory = sv.conversationHistory ∧
      (stepVN sv av).2.strikes = sv.strikes ++ [(sv.currentPlayerId, .multipleActions)]) ∧
    (∀ (st : WState) (pt : Nat) (a b : Str),
      st.playersPassed.contains pt = false →
      broadcastSearch a = some b →
      process_talk_phase st pt a =
        (if stripStr b = [] then (false, setInvalid pt .emptyBroadcast st)
         else (true, {st with
            observations := (st.observations ++
              [⟨GAME_ID, -1, .broadcastMsg pt (stripStr b), .gameActionDescription⟩]),
            talkMessages := (st.talkMessages ++
              [⟨st.currentRound, st.talkRound, pt, .all, stripStr b, false⟩])}))) ∧
    (∀ (st : WState) (pt : Nat) (a d b : Str),
      st.playersPassed.contains pt = false →
      broadcastSearch a = none →
      whisperSearch a = some (d, b) →
      process_talk_phase st pt a =
        (if 4 ≤ digitsToNat d then (false, setInvalid pt .targetOutOfRange st)
         else if digitsToNat d = pt then (false, setInvalid pt .whisperSelf st)
         else if stripStr b = [] then (false, setInvalid pt .emptyWhisper st)
         else (true, {st with
            observations := (st.observations ++
              [⟨GAME_ID, Int.ofNat (digitsToNat d), .privateMsg pt (stripStr b),
                .gameActionDescription⟩,
               ⟨GAME_ID, Int.ofNat pt, .privateConfirm (digitsToNat d) (stripStr b),
                .gameActionDescription⟩] ++
              ((List.range 4).filter (fun q => decide (q ≠ pt ∧ q ≠ digitsToNat d))).map
                (fun q => ⟨GAME_ID, Int.ofNat q, .privateNotice, .gameActionDescription⟩)),
            talkMessages := (st.talkMessages ++
              [⟨st.currentRound, st.talkRound, pt, .player (digitsToNat d),
                stripStr b, true⟩])}))) ∧
    (∀ (st : WState) (pt : Nat) (a : Str),
      st.playersPassed.contains pt = false →
      broadcastSearch a = none →
      whisperSearch a = none →
      passFound a = true →
      process_talk_phase st pt a =
        (true, {st with
          playersPassed := st.playersPassed ++ [pt],
          observations := (st.observations ++
            [⟨GAME_ID, -1, .passedMsg pt, .gameActionDescription⟩])})) ∧
    (∀ (sa : WState) (pa : Nat) (a : Str),
      (sa.playerChoices.lookup pa).isSome = false →
      chooseFound 'X' a = true →
      process_act_phase sa pa a =
        (true, {sa with
          playerChoices := sa.playerChoices ++ [(pa, XY.X)],
          observations := (sa.observations ++
            [⟨GAME_ID, -1, .madeChoice pa, .gameActionDescription⟩])})) ∧
    (∀ (sa : WState) (pa : Nat) (a : Str),
      (sa.playerChoices.lookup pa).isSome = false →
      chooseFound 'X' a = false →
      chooseFound 'Y' a = true →
      process_act_phase sa pa a =
        (true, {sa with
          playerChoices := sa.playerChoices ++ [(pa, XY.Y)],
          observations := (sa.observations ++
            [⟨GAME_ID, -1, .madeChoice pa, .gameActionDescription⟩])})) := by
  refine ⟨?_, ?_, ?_, ?_, ?_, ?_⟩
  · intro sv av hcount
    have hval : ∀ x : VNState, is_valid_action x av = some .multipleActions := by
      intro x
      simp only [is_valid_action]
      rw [if_neg (by omega), if_pos (by omega)]
    refine ⟨hval sv, ?_, ?_, ?_, ?_⟩
    · simp only [stepVN, addVObs_def, hval, setVInvalid_def]
      split
      · exact ((vn_end_game_preserves _ _).2.2.1).trans (by simp [vnCoreStep])
      · simp [vnCoreStep]
    · simp only [stepVN, addVObs_def, hval, setVInvalid_def]
      split
      · exact ((vn_end_game_preserves _ _).2.1).trans (by simp [vnCoreStep])
      · simp [vnCoreStep]
    · simp only [stepVN, addVObs_def, hval, setVInvalid_def]
      split
      · exact ((vn_end_game_preserves _ _).1).trans (by simp [vnCoreStep])
      · simp [vnCoreStep]
    · simp only [stepVN, addVObs_def, hval, setVInvalid_def]
      split
      · exact ((vn_end_game_preserves _ _).2.2.2).trans (by simp [vnCoreStep])
      · simp [vnCoreStep]
  · intro st pt a b hpass hb
    by_cases hmsg : stripStr b = [] <;>
      (simp only [process_talk_phase, hpass]
       simp [hb, addObs_def, hmsg])
  · intro st pt a d b hpass hb hw
    by_cases h1 : 4 ≤ digitsToNat d
    · simp only [process_talk_phase, hpass, Bool.false_eq_true, if_false, hb, hw]
      rw [if_pos h1, if_pos h1]
    · by_cases h2 : digitsToNat d = pt
      · simp only [process_talk_phase, hpass, Bool.false_eq_true, if_false, hb, hw]
        rw [if_neg h1, if_neg h1, if_pos h2, if_pos h2]
      · by_cases h3 : stripStr b = []
        · simp only [process_talk_phase, hpass, Bool.false_eq_true, if_false, hb, hw]
          rw [if_neg h1, if_neg h1, if_neg h2, if_neg h2, if_pos h3, if_pos h3]
        · rw [process_talk_whisper_eq st pt a d b hpass hb hw (by omega) h2 h3,
            if_neg h1, if_neg h2, if_neg h3]
  · intro st pt a hpass hb hw hp
    simp only [process_talk_phase, hpass, Bool.false_eq_true, if_false, hb, hw, hp,
      if_true, addObs_def]
  · intro sa pa a hch hx
    simp only [process_act_phase, hch, Bool.false_eq_true, if_false, hx, if_true, addObs_def]
  · intro sa pa a hch hx hy
    simp only [process_act_phase, hch, Bool.false_eq_true, if_false, hx, hy, if_true,
      addObs_def]

/-- C5 witness: `"[Propose] 20% [Accept]"` is charged as multiple actions in
VendorNegotiation; in the round-5 talk state, `"[Broadcast] hi [Pass]"`
executes as a broadcast with no strike, `"[Pass] [Broadcast]"` is charged
for its empty broadcast body (not for ambiguity, and the pass does not
execute), `"[Whisper to 2] hi [Pass]"` executes as a whisper with the pass
ignored, `"[Whisper to 0] hi [Pass]"` is charged as a self-whisper, a lone
`[Pass]` executes, and in the act phase `"[Choose X] [Choose Y]"` records X
while `"[Choose Y]"` records Y. -/
theorem C5_amended_multiple_commands_witness :
    is_valid_action (resetVN testEnv) "[Propose] 20% [Accept]".toList =
      some .multipleActions ∧
    (process_talk_phase talkState5 0 "[Broadcast] hi [Pass]".toList).1 = true ∧
    (process_talk_phase talkState5 0 "[Broadcast] hi [Pass]".toList).2.strikes = [] ∧
    (process_talk_phase talkState5 0 "[Pass] [Broadcast]".toList).2.strikes =
      [(0, WReason.emptyBroadcast)] ∧
    (process_talk_phase talkState5 0 "[Whisper to 2] hi [Pass]".toList).1 = true ∧
    (process_talk_phase talkState5 0 "[Whisper to 2] hi [Pass]".toList).2.playersPassed =
      [] ∧
    (process_talk_phase talkState5 0 "[Whisper to 0] hi [Pass]".toList).2.strikes =
      [(0, WReason.whisperSelf)] ∧
    (process_talk_phase talkState5 0 "ok, done [Pass]".toList).2.playersPassed = [0] ∧
    (process_act_phase resetW 0 "[Choose X] [Choose Y]".toList).2.playerChoices =
      [(0, XY.X)] ∧
    (process_act_phase resetW 0 "[Choose Y]".toList).2.playerChoices = [(0, XY.Y)] := by
  have h := C5_amended_multiple_commands
  refine ⟨(h.1 (resetVN testEnv) "[Propose] 20% [Accept]".toList (by decide)).1,
    ?_, ?_, ?_, ?_, ?_, ?_, ?_, ?_, ?_⟩
  · rw [h.2.1 talkState5 0 "[Broadcast] hi [Pass]".toList "hi [Pass]".toList
      (by decide) (by decide)]
    decide
  · rw [h.2.1 talkState5 0 "[Broadcast] hi [Pass]".toList "hi [Pass]".toList
      (by decide) (by decide)]
    decide
  · rw [h.2.1 talkState5 0 "[Pass] [Broadcast]".toList "".toList (by decide) (by decide)]
    decide
  · rw [h.2.2.1 talkState5 0 "[Whisper to 2] hi [Pass]".toList "2".toList
      "hi [Pass]".toList (by decide) (by decide) (by decide)]
    decide
  · rw [h.2.2.1 talkState5 0 "[Whisper to 2] hi [Pass]".toList "2".toList
      "hi [Pass]".toList (by decide) (by decide) (by decide)]
    decide
  · rw [h.2.2.1 talkState5 0 "[Whisper to 0] hi [Pass]".toList "0".toList
      "hi [Pass]".toList (by decide) (by decide) (by decide)]
    decide
  · rw [h.2.2.2.1 talkState5 0 "ok, done [Pass]".toList (by decide) (by decide)
      (by decide) (by decide)]
    decide
  · rw [h.2.2.2.2.1 resetW 0 "[Choose X] [Choose Y]".toList (by decide) (by decide)]
    decide
  · rw [h.2.2.2.2.2 resetW 0 "[Choose Y]".toList (by decide) (by decide) (by decide)]
    decide

/-- C7: next-speaker selection in a talk phase scans in strictly ascending
player order from just after the current actor, wrapping modulo 4: with no
passed players it visits the three other players once each and then returns
to the starting actor, and a player who has passed is never selected. -/
theorem C7_round_robin (s : WState) (h : s.talkRound < s.maxTalkRounds) :
    (s.playersPassed = [] → s.currentPlayerId < 4 →
      get_next_talk_player s = some ((s.currentPlayerId + 1) % 4) ∧
      get_next_talk_player {s with currentPlayerId := (s.currentPlayerId + 1) % 4} =
        some ((s.currentPlayerId + 2) % 4) ∧
      get_next_talk_player {s with currentPlayerId := (s.currentPlayerId + 2) % 4} =
        some ((s.currentPlayerId + 3) % 4) ∧
      get_next_talk_player {s with currentPlayerId := (s.currentPlayerId + 3) % 4} =
        some s.currentPlayerId ∧
      ((s.currentPlayerId + 1) % 4 ≠ s.currentPlayerId ∧
        (s.currentPlayerId + 2) % 4 ≠ s.currentPlayerId ∧
        (s.currentPlayerId + 3) % 4 ≠ s.currentPlayerId) ∧
      ((s.currentPlayerId + 1) % 4 ≠ (s.currentPlayerId + 2) % 4 ∧
        (s.currentPlayerId + 1) % 4 ≠ (s.currentPlayerId + 3) % 4 ∧
        (s.currentPlayerId + 2) % 4 ≠ (s.currentPlayerId + 3) % 4)) ∧
    (∀ p, s.playersPassed.contains p = true → get_next_talk_player s ≠ some p) := by
  constructor
  · intro hpass hlt
    have key : ∀ t : WState, t.playersPassed = [] → t.talkRound < t.maxTalkRounds →
        get_next_talk_player t = some ((t.currentPlayerId + 1) % 4) := by
      intro t hpassT hT
      unfold get_next_talk_player
      rw [if_neg (Nat.not_le.mpr hT)]
      simp [hpassT]
    refine ⟨key s hpass h, ?_, ?_, ?_, by omega, by omega⟩
    · rw [key _ (by simpa using hpass) (by simpa using h)]
      simp only [Option.some.injEq]
      omega
    · rw [key _ (by simpa using hpass) (by simpa using h)]
      simp only [Option.some.injEq]
      omega
    · rw [key _ (by simpa using hpass) (by simpa using h)]
      simp only [Option.some.injEq]
      omega
  · intro p hp
    unfold get_next_talk_player
    rw [if_neg (Nat.not_le.mpr h)]
    dsimp only
    split_ifs with h1 h2 h3 h4
    · simp
    · intro he
      rw [Option.some.injEq] at he
      rw [he] at h4
      rw [hp] at h4
      exact h4 rfl
    · intro he
      rw [Option.some.injEq] at he
      rw [he] at h3
      rw [hp] at h3
      exact h3 rfl
    · intro he
      rw [Option.some.injEq] at he
      rw [he] at h2
      rw [hp] at h2
      exact h2 rfl
    · intro he
      rw [Option.some.injEq] at he
      rw [he] at h1
      rw [hp] at h1
      exact h1 rfl

/-- C7 witness: in the round-5 talk state (player 0, nobody passed) the
selection order is 1, 2, 3 and then back to 0. -/
theorem C7_round_robin_witness :
    get_next_talk_player talkState5 = some ((talkState5.currentPlayerId + 1) % 4) ∧
    get_next_talk_player {talkState5 with
      currentPlayerId := (talkState5.currentPlayerId + 3) % 4} =
        some talkState5.currentPlayerId := by
  have h := (C7_round_robin talkState5 (by decide)).1 (by decide) (by decide)
  exact ⟨h.1, h.2.2.2.1⟩

namespace VendorNegotiation

/-- `_is_valid_action` does not read the observation log. -/
theorem is_valid_action_obs (s : VNState) (o : List VObs) (a : Str) :
    is_valid_action {s with observations := o} a = is_valid_action s a := rfl

end VendorNegotiation

/-- C2 witness: free text is accepted in VendorNegotiation and charged as
invalid in both WinAsMuchAsYouCan phases, at concrete reachable states. -/
theorem C2_amended_free_text_witness :
    is_valid_action (resetVN testEnv) "hello there friend".toList = none ∧
    process_talk_phase talkState5 0 "nice to meet you".toList =
      (false, setInvalid 0 .useTalkCommands talkState5) ∧
    process_act_phase resetW 0 "thinking about it".toList =
      (false, setInvalid 0 .useChooseCommands resetW) := by
  have h := C2_amended_free_text (resetVN testEnv) "hello there friend".toList
    (by decide) (by decide) (by decide)
    talkState5 0 "nice to meet you".toList (by decide) (by decide) (by decide) (by decide)
    (by decide)
    resetW 0 "thinking about it".toList (by decide) (by decide) (by decide) (by decide)
  exact ⟨h.1.1, h.2.1, h.2.2⟩

/-- C8 as amended: a whisper addressed to the sender themselves in a talk
phase is rejected ("Cannot whisper to yourself") with a strike recorded and
nothing appended to the talk-message history, and the only observation
delivered during the step is the automatic echo of the raw action to the
sender (which does carry the whisper text); no other player receives any
observation. -/
theorem C8_amended_self_whisper (s : WState) (a d b : Str)
    (hphase : s.currentPhase = WPhase.talk)
    (hpass : s.playersPassed.contains s.currentPlayerId = false)
    (hb : broadcastSearch a = none)
    (hw : whisperSearch a = some (d, b))
    (ht : digitsToNat d = s.currentPlayerId)
    (hlt : digitsToNat d < 4) :
    (stepW s a).2.strikes = s.strikes ++ [(s.currentPlayerId, .whisperSelf)] ∧
    (stepW s a).2.talkMessages = s.talkMessages ∧
    (stepW s a).2.observations = s.observations ++
      [⟨Int.ofNat s.currentPlayerId, Int.ofNat s.currentPlayerId,
        .playerActionEcho a, .playerAction⟩] := by
  have hproc : ∀ t : WState, t.playersPassed.contains s.currentPlayerId = false →
      process_talk_phase t s.currentPlayerId a =
        (false, setInvalid s.currentPlayerId .whisperSelf t) := by
    intro t hp
    simp only [process_talk_phase, hp, Bool.false_eq_true, if_false, hb, hw]
    rw [if_neg (by omega), if_pos ht]
  simp only [stepW, hw, Option.isSome_some, if_true, addObs_def, process_action, hphase]
  rw [hproc _ (by simpa using hpass)]
  simp [advance_after, coreStep_eq, setInvalid_def]

/-- C8 witness: player 0 whispering to themselves in the round-5 talk
state. -/
theorem C8_amended_self_whisper_witness :
    (stepW talkState5 "[Whisper to 0] hey".toList).2.strikes =
      talkState5.strikes ++ [(talkState5.currentPlayerId, .whisperSelf)] ∧
    (stepW talkState5 "[Whisper to 0] hey".toList).2.talkMessages =
      talkState5.talkMessages := by
  have h := C8_amended_self_whisper talkState5 "[Whisper to 0] hey".toList
    "0".toList "hey".toList (by decide) (by decide) (by decide) (by decide) (by decide)
    (by decide)
  exact ⟨h.1, h.2.1⟩

/-- C9: processing a valid `[Reject]` clears the current proposal, and any
`[Accept]` or `[Reject]` submitted while no proposal is pending is charged
as an invalid move ("No current proposal to accept/reject") and leaves the
proposal (still none) and all histories unchanged. -/
theorem C9_reject_clears_proposal :
    (∀ (s : VNState) (a : Str),
      hasReject (stripStr a) = true → hasPropose (stripStr a) = false →
      hasAccept (stripStr a) = false → is_valid_action s a = none →
      (stepVN s a).2.currentProposal = none) ∧
    (∀ (s : VNState) (a : Str),
      s.currentProposal = none → hasPropose (stripStr a) = false →
      hasAccept (stripStr a) ≠ hasReject (stripStr a) →
      is_valid_action s a = some (.noProposal (hasAccept (stripStr a))) ∧
      (stepVN s a).2.currentProposal = none ∧
      (stepVN s a).2.negotiationHistory = s.negotiationHistory ∧
      (stepVN s a).2.conversationHistory = s.conversationHistory ∧
      (stepVN s a).2.strikes = s.strikes ++
        [(s.currentPlayerId, .noProposal (hasAccept (stripStr a)))]) := by
  constructor
  · intro s a hrj hp ha hv
    have hv' : is_valid_action {s with observations := s.observations ++
        [⟨Int.ofNat s.currentPlayerId, Int.ofNat s.currentPlayerId,
          .actionEcho a, .playerAction⟩]} a = none := by
      rw [is_valid_action_obs]
      exact hv
    simp only [stepVN, addVObs_def, hv']
    simp only [process_valid_action, hp, ha, hrj, Bool.false_eq_true, if_false, if_true,
      process_reject, record_conv_part, record_action, addVObs_def, vnCoreStep]
    repeat' split
    all_goals
      first
        | exact ((vn_end_game_preserves _ _).2.2.1).trans (by simp)
        | simp
  · intro s a hprop hp hx
    have hval : ∀ x : VNState, x.currentProposal = none →
        is_valid_action x a = some (.noProposal (hasAccept (stripStr a))) := by
      intro x hx2
      cases hac : hasAccept (stripStr a) <;> cases hrj : hasReject (stripStr a)
      · rw [hac, hrj] at hx
        exact absurd rfl hx
      · simp [is_valid_action, hp, hac, hrj, hx2]
      · simp [is_valid_action, hp, hac, hrj, hx2]
      · rw [hac, hrj] at hx
        exact absurd rfl hx
    have hv' : is_valid_action {s with observations := s.observations ++
        [⟨Int.ofNat s.currentPlayerId, Int.ofNat s.currentPlayerId,
          .actionEcho a, .playerAction⟩]} a =
        some (.noProposal (hasAccept (stripStr a))) := by
      rw [is_valid_action_obs]
      exact hval s hprop
    refine ⟨hval s hprop, ?_, ?_, ?_, ?_⟩
    all_goals
      simp only [stepVN, addVObs_def, hv', setVInvalid_def, vnCoreStep]
      split
    · exact ((vn_end_game_preserves _ _).2.2.1).trans (by simp [hprop])
    · simp [hprop]
    · exact ((vn_end_game_preserves _ _).2.1).trans (by simp)
    · simp
    · exact ((vn_end_game_preserves _ _).1).trans (by simp)
    · simp
    · exact ((vn_end_game_preserves _ _).2.2.2).trans (by simp)
    · simp

/-- C9 witness: after player 1 rejects the opening proposal the proposal is
cleared, and a stale `[Accept]` is then charged with "No current proposal to
accept". -/
theorem C9_reject_clears_proposal_witness :
    (stepVN proposedState "[Reject]".toList).2.currentProposal = none ∧
    (is_valid_action rejectedState "[Accept]".toList =
      some (.noProposal (hasAccept (stripStr "[Accept]".toList))) ∧
     (stepVN rejectedState "[Accept]".toList).2.strikes = rejectedState.strikes ++
       [(rejectedState.currentPlayerId,
         .noProposal (hasAccept (stripStr "[Accept]".toList)))]) := by
  have h1 := C9_reject_clears_proposal.1 proposedState "[Reject]".toList
    (by decide) (by decide) (by decide) (by with_unfolding_all decide)
  have h2 := C9_reject_clears_proposal.2 rejectedState "[Accept]".toList
    (by with_unfolding_all decide) (by decide) (by decide)
  exact ⟨h1, h2.1, h2.2.2.2.2⟩
